import Mathlib

/-!
# ReactionParser: shallow embedding of `parser.c`

This file embeds the arithmetic-expression evaluator of the ReactionParser
repository (the first, thread-local variant of `parser.c`, the one with
`ParserContext`, `classify_char` and the `thread_local` scan cursor
`tstart`) and proves or refutes the specification's claims about it.

Modelling conventions, all visible in the definitions below:

* C `double` values are modelled by `DVal`: exact rationals for finite
  values plus the IEEE-754 specials `inf`, `neginf` and `nan`.  Every
  computation exercised by a theorem in this file is exactly representable
  in binary64, so rational arithmetic agrees with the C program there.
  Rounding, overflow-to-infinity and the sign of zero are not modelled
  (no theorem below depends on them).
* `exit(EXIT_FAILURE)` is modelled by the `PResult.exited` outcome,
  `return EXIT_FAILURE;` (which returns the double `1.0` on the ordinary
  return channel) by `PResult.retFailure`, and calling the NULL `eval`
  member of the `(` / `)` table entries by `PResult.crash`.
* The scanner's `tstart` pointer is thread-local in the source and is
  *never* reset by `parser`; it is modelled as an explicit `Option Nat`
  (byte offset into the expression) threaded into and out of
  `parserFrom`.  `parser` itself runs with the initial (thread-start)
  value `none`.
* `op_lookup[(unsigned char)c]` reads out of bounds for bytes `≥ 128`;
  the model returns `none` there, and theorems quantifying over arbitrary
  strings carry an ASCII hypothesis where that boundary could matter.
* `strtod`/`fmodf`/`pow` are modelled on the inputs the program can
  actually hand them; see the doc comments on `parseNum`, `dfmod`, `dpow`.
-/

-- Batteries marks the rational-number operations `@[irreducible]`, which
-- blocks the evaluation performed by `decide` (the kernel itself is not
-- affected by reducibility attributes).  The concrete evaluations below
-- need them to unfold.
set_option allowUnsafeReducibility true in
attribute [semireducible] Rat.add Rat.sub Rat.mul Rat.inv

namespace ReactionParser

/-- Decidable equality of `Except` results, by cases on the constructors. -/
instance {ε α : Type} [DecidableEq ε] [DecidableEq α] : DecidableEq (Except ε α) :=
  fun a b =>
    match a, b with
    | .error e, .error e' =>
        if h : e = e' then isTrue (by rw [h])
        else isFalse (fun hh => h (by injection hh))
    | .error _, .ok _ => isFalse (fun hh => Except.noConfusion hh)
    | .ok _, .error _ => isFalse (fun hh => Except.noConfusion hh)
    | .ok v, .ok v' =>
        if h : v = v' then isTrue (by rw [h])
        else isFalse (fun hh => h (by injection hh))

/-- Model of a C `double`: an exact rational for finite values, plus the
IEEE-754 special values.  Signed zero is not distinguished. -/
inductive DVal where
  | fin (q : ℚ)
  | inf
  | neginf
  | nan
  deriving DecidableEq

/-- Negation of a double (`-arg1`). -/
def dneg : DVal → DVal
  | .fin q => .fin (-q)
  | .inf => .neginf
  | .neginf => .inf
  | .nan => .nan

/-- IEEE-style addition; finite sums are exact (overflow not modelled). -/
def dadd : DVal → DVal → DVal
  | .nan, _ => .nan
  | _, .nan => .nan
  | .fin a, .fin b => .fin (a + b)
  | .inf, .neginf => .nan
  | .neginf, .inf => .nan
  | .inf, _ => .inf
  | _, .inf => .inf
  | .neginf, _ => .neginf
  | _, .neginf => .neginf

/-- IEEE-style subtraction; finite differences are exact. -/
def dsub : DVal → DVal → DVal
  | .nan, _ => .nan
  | _, .nan => .nan
  | .fin a, .fin b => .fin (a - b)
  | .inf, .inf => .nan
  | .neginf, .neginf => .nan
  | .inf, _ => .inf
  | _, .inf => .neginf
  | .neginf, _ => .neginf
  | _, .neginf => .inf

/-- IEEE-style multiplication; finite products are exact. -/
def dmul : DVal → DVal → DVal
  | .nan, _ => .nan
  | _, .nan => .nan
  | .fin a, .fin b => .fin (a * b)
  | .inf, .inf => .inf
  | .inf, .neginf => .neginf
  | .neginf, .inf => .neginf
  | .neginf, .neginf => .inf
  | .inf, .fin b => if b = 0 then .nan else if 0 < b then .inf else .neginf
  | .fin a, .inf => if a = 0 then .nan else if 0 < a then .inf else .neginf
  | .neginf, .fin b => if b = 0 then .nan else if 0 < b then .neginf else .inf
  | .fin a, .neginf => if a = 0 then .nan else if 0 < a then .neginf else .inf

/-- IEEE-style division.  In particular a nonzero finite numerator over
(positive) zero yields an infinity and `0/0` yields NaN — C `arg1/arg2`
raises no error of any kind. -/
def ddiv : DVal → DVal → DVal
  | .nan, _ => .nan
  | _, .nan => .nan
  | .fin a, .fin b =>
      if b = 0 then (if 0 < a then .inf else if a < 0 then .neginf else .nan)
      else .fin (a / b)
  | .fin _, .inf => .fin 0
  | .fin _, .neginf => .fin 0
  | .inf, .fin b => if 0 ≤ b then .inf else .neginf
  | .neginf, .fin b => if 0 ≤ b then .neginf else .inf
  | .inf, .inf => .nan
  | .inf, .neginf => .nan
  | .neginf, .inf => .nan
  | .neginf, .neginf => .nan

/-- Truncation toward zero, as C float-to-integer conversion inside `fmod`. -/
def qtrunc (q : ℚ) : ℤ := if 0 ≤ q then ⌊q⌋ else ⌈q⌉

/-- Model of `fmodf(arg1, arg2)`: the IEEE remainder truncated toward zero.
A zero divisor yields NaN (C raises no error).  The `float` intermediate
precision of `fmodf` is not modelled; every modulo a theorem below
evaluates is exact in single precision. -/
def dfmod : DVal → DVal → DVal
  | .nan, _ => .nan
  | _, .nan => .nan
  | .fin a, .fin b => if b = 0 then .nan else .fin (a - b * (qtrunc (a / b) : ℚ))
  | .fin a, .inf => .fin a
  | .fin a, .neginf => .fin a
  | .inf, _ => .nan
  | .neginf, _ => .nan

/-- Model of C `pow`.  Exact for finite bases and integer exponents (the
only case any theorem in this file evaluates); a finite non-integer
exponent generally has an irrational value, which this rational model maps
to `nan` — no claim exercises that case.  Special values follow IEEE 754
(`pow(x, 0) = 1` for every `x`, including NaN). -/
def dpow : DVal → DVal → DVal
  | x, .fin b =>
      if b = 0 then .fin 1
      else
        match x with
        | .nan => .nan
        | .fin a =>
            if b.den = 1 then
              if 0 ≤ b.num then .fin (a ^ b.num.toNat)
              else if a = 0 then .inf
              else .fin (1 / a ^ (-b.num).toNat)
            else .nan
        | .inf => if 0 < b then .inf else .fin 0
        | .neginf =>
            if 0 < b then (if b.den = 1 ∧ b.num % 2 = 1 then .neginf else .inf)
            else .fin 0
  | .nan, _ => .nan
  | _, .nan => .nan
  | .fin a, .inf => if a = 1 ∨ a = -1 then .fin 1 else if -1 < a ∧ a < 1 then .fin 0 else .inf
  | .fin a, .neginf => if a = 1 ∨ a = -1 then .fin 1 else if -1 < a ∧ a < 1 then .inf else .fin 0
  | .inf, .inf => .inf
  | .neginf, .inf => .inf
  | .inf, .neginf => .fin 0
  | .neginf, .neginf => .fin 0

/-! ## Operator evaluation functions (`parser.c` lines 46-52) -/

/-- `eval_uminus(arg1, arg2) = -arg1` (the second argument is ignored). -/
def eval_uminus (arg1 : DVal) (_ : DVal) : DVal := dneg arg1

/-- `eval_exponent(arg1, arg2) = pow(arg1, arg2)`. -/
def eval_exponent (arg1 arg2 : DVal) : DVal := dpow arg1 arg2

/-- `eval_multiply(arg1, arg2) = arg1 * arg2`. -/
def eval_multiply (arg1 arg2 : DVal) : DVal := dmul arg1 arg2

/-- `eval_divide(arg1, arg2) = arg1 / arg2` — no division-by-zero check. -/
def eval_divide (arg1 arg2 : DVal) : DVal := ddiv arg1 arg2

/-- `eval_add(arg1, arg2) = arg1 + arg2`. -/
def eval_add (arg1 arg2 : DVal) : DVal := dadd arg1 arg2

/-- `eval_subtract(arg1, arg2) = arg1 - arg2`. -/
def eval_subtract (arg1 arg2 : DVal) : DVal := dsub arg1 arg2

/-- `eval_modulo(arg1, arg2) = fmodf(arg1, arg2)` — no zero check in the
embedded (thread-local) variant. -/
def eval_modulo (arg1 arg2 : DVal) : DVal := dfmod arg1 arg2

/-! ## Operator table (`parser.c` lines 55-86) -/

/-- `enum {ASSOC_NONE=0, ASSOC_LEFT, ASSOC_RIGHT}`. -/
inductive Assoc where
  | anone
  | aleft
  | aright
  deriving DecidableEq

/-- `struct Operator`: symbol, precedence, associativity, unary flag, and
the evaluation function pointer (`none` models the NULL pointer of the
parenthesis entries). -/
structure Operator where
  symbol : Char
  precedence : Nat
  association : Assoc
  unary : Bool
  evalFn : Option (DVal → DVal → DVal)

/-- Table entry `{'_', 10, ASSOC_RIGHT, 1, eval_uminus}`. -/
def op_uminus : Operator := ⟨'_', 10, .aright, true, some eval_uminus⟩

/-- Table entry `{'^', 9, ASSOC_RIGHT, 0, eval_exponent}`. -/
def op_exponent : Operator := ⟨'^', 9, .aright, false, some eval_exponent⟩

/-- Table entry `{'*', 8, ASSOC_LEFT, 0, eval_multiply}`. -/
def op_multiply : Operator := ⟨'*', 8, .aleft, false, some eval_multiply⟩

/-- Table entry `{'/', 8, ASSOC_LEFT, 0, eval_divide}`. -/
def op_divide : Operator := ⟨'/', 8, .aleft, false, some eval_divide⟩

/-- Table entry `{'%', 8, ASSOC_LEFT, 0, eval_modulo}`. -/
def op_modulo : Operator := ⟨'%', 8, .aleft, false, some eval_modulo⟩

/-- Table entry `{'+', 5, ASSOC_LEFT, 0, eval_add}`. -/
def op_add : Operator := ⟨'+', 5, .aleft, false, some eval_add⟩

/-- Table entry `{'-', 5, ASSOC_LEFT, 0, eval_subtract}`. -/
def op_subtract : Operator := ⟨'-', 5, .aleft, false, some eval_subtract⟩

/-- Table entry `{'(', 0, ASSOC_NONE, 0, NULL}`. -/
def op_lparen : Operator := ⟨'(', 0, .anone, false, none⟩

/-- Table entry `{')', 0, ASSOC_NONE, 0, NULL}`. -/
def op_rparen : Operator := ⟨')', 0, .anone, false, none⟩

/-- The `operators[]` initializer, in source order. -/
def operators : List Operator :=
  [op_uminus, op_exponent, op_multiply, op_divide, op_modulo,
   op_add, op_subtract, op_lparen, op_rparen]

/-- `GET_OPERATOR(c)` / `op_lookup[(unsigned char)c]` after
`init_operator_lookup` (each symbol occurs once, so list lookup agrees
with the dense array).  Bytes outside the table give the NULL pointer. -/
def GET_OPERATOR (c : Char) : Option Operator :=
  operators.find? (fun o => o.symbol == c)

/-! ## Character classification (`parser.c` lines 42, 185-191) -/

/-- `IS_DIGIT_OR_DECIMAL(c)`: `.` or an ASCII digit. -/
def IS_DIGIT_OR_DECIMAL (c : Char) : Bool := c == '.' || c.isDigit

/-- C `isspace` on the ASCII whitespace set. -/
def isspaceChar (c : Char) : Bool :=
  c == ' ' || c == '\t' || c == '\n' || c == '\x0b' || c == '\x0c' || c == '\r'

/-! ## Numeric conversion (`strtod(tstart, NULL)`) -/

/-- Decimal value of a digit run. -/
def digitsVal (l : List Char) : ℕ :=
  l.foldl (fun a c => 10 * a + (c.toNat - '0'.toNat)) 0

/-- `strtod` as invoked by the scanner: it is only ever handed a pointer to
a digit-or-`.` character, and the characters it can consume there are a run
of digits, at most one `.`, and a further digit run (any character that
could extend the conversion further — an exponent letter, say — is outside
the accepted character set and aborts the scan before any conversion).
If no digit is consumed the conversion fails and `strtod` returns `0.0`,
which the scanner uses as the value. -/
def parseNum (l : List Char) : ℚ :=
  let intd := l.takeWhile (fun c => c.isDigit)
  let rest := l.drop intd.length
  match rest with
  | '.' :: r2 =>
      let fracd := r2.takeWhile (fun c => c.isDigit)
      (digitsVal intd : ℚ) + (digitsVal fracd : ℚ) / ((10 : ℚ) ^ fracd.length)
  | _ => (digitsVal intd : ℚ)

/-- `strtod(tstart, NULL)` where `tstart` is byte offset `t` of the
expression. -/
def strtodAt (s : List Char) (t : Nat) : DVal := .fin (parseNum (s.drop t))

/-! ## Failure outcomes -/

/-- The distinct failure messages of `parser.c` (one constructor per
`fprintf` site).  `divisionByZero` occurs only in the second source
variant's `eval_modulo`. -/
inductive PError where
  | opStackOverflow
  | opStackEmpty
  | numStackOverflow
  | numStackEmpty
  | noMatchingParen
  | illegalBinaryOp (c : Char)
  | syntaxErrorChar (c : Char)
  | syntaxErrorMid
  | malformedResult (n : Nat)
  | divisionByZero
  deriving DecidableEq

/-- Abnormal outcome of a helper (`push_*`/`pop_*`/`shunt_operator`):
either `exit(EXIT_FAILURE)` with a given message, or the undefined
behaviour of calling the NULL `eval` pointer of a parenthesis entry. -/
inductive HErr where
  | exitE (e : PError)
  | crashE
  deriving DecidableEq

/-- Abnormal outcome of the whole evaluation, carrying the value the
thread-local `tstart` holds at that moment.  `retA` models
`return EXIT_FAILURE;` (the caller receives the double `1.0`), `exitA`
models `exit(EXIT_FAILURE)`, `crashA` the NULL-pointer call. -/
inductive Abort where
  | retA (e : PError) (t : Option Nat)
  | exitA (e : PError) (t : Option Nat)
  | crashA (t : Option Nat)
  deriving DecidableEq

/-- Observable result of one `parser` call. -/
inductive PResult where
  | ok (v : DVal)
  | retFailure (e : PError)
  | exited (e : PError)
  | crash
  deriving DecidableEq

/-- The double value the caller actually receives from `parser`:
`return EXIT_FAILURE;` delivers `1.0` on the very same channel as a
successful result; `exit`/crash deliver nothing. -/
def returnedDouble : PResult → Option DVal
  | .ok v => some v
  | .retFailure _ => some (.fin 1)
  | .exited _ => none
  | .crash => none

/-! ## Stacks (`parser.c` lines 39-40, 89-129).  The C arrays hold the
stack bottom at index 0; the lists below hold the top at the head. -/

/-- `MAXOPSTACK`. -/
def MAXOPSTACK : Nat := 64

/-- `MAXNUMSTACK`. -/
def MAXNUMSTACK : Nat := 64

/-- `push_opstack`: overflow check, then store. -/
def push_opstack (ops : List Operator) (o : Operator) : Except HErr (List Operator) :=
  if ops.length > MAXOPSTACK - 1 then .error (.exitE .opStackOverflow)
  else .ok (o :: ops)

/-- `pop_opstack`: empty check, then pop. -/
def pop_opstack (ops : List Operator) : Except HErr (Operator × List Operator) :=
  match ops with
  | [] => .error (.exitE .opStackEmpty)
  | o :: rest => .ok (o, rest)

/-- `push_numstack`. -/
def push_numstack (nums : List DVal) (v : DVal) : Except HErr (List DVal) :=
  if nums.length > MAXNUMSTACK - 1 then .error (.exitE .numStackOverflow)
  else .ok (v :: nums)

/-- `pop_numstack`. -/
def pop_numstack (nums : List DVal) : Except HErr (DVal × List DVal) :=
  match nums with
  | [] => .error (.exitE .numStackEmpty)
  | v :: rest => .ok (v, rest)

/-- Call through an operator's `eval` pointer; the NULL pointer of a
parenthesis entry is undefined behaviour. -/
def evalApply (o : Operator) (a b : DVal) : Except HErr DVal :=
  match o.evalFn with
  | some f => .ok (f a b)
  | none => .error .crashE

/-- One reduction: pop `n1`; a unary operator is applied as `eval(n1, 0)`,
a binary one pops `n2` (the left operand) and applies `eval(n2, n1)`; the
result is pushed. -/
def reduceTop (o : Operator) (nums : List DVal) : Except HErr (List DVal) :=
  match pop_numstack nums with
  | .error h => .error h
  | .ok (n1, ns1) =>
      if o.unary then
        match evalApply o n1 (.fin 0) with
        | .error h => .error h
        | .ok v => push_numstack ns1 v
      else
        match pop_numstack ns1 with
        | .error h => .error h
        | .ok (n2, ns2) =>
            match evalApply o n2 n1 with
            | .error h => .error h
            | .ok v => push_numstack ns2 v

/-- The C `while` loops of `shunt_operator` and of the end-of-input drain:
as long as the operator stack is nonempty and its top satisfies `cond`,
pop and reduce. -/
def reduceWhile (cond : Operator → Bool) :
    List Operator → List DVal → Except HErr (List Operator × List DVal)
  | [], nums => .ok ([], nums)
  | top :: rest, nums =>
      if cond top then
        match reduceTop top nums with
        | .error h => .error h
        | .ok nums' => reduceWhile cond rest nums'
      else .ok (top :: rest, nums)

/-- `shunt_operator` (`parser.c` lines 131-183): `(` is pushed
unconditionally; `)` reduces until the top is `(` (an emptied stack makes
the subsequent `pop_opstack` exit) and then pops the `(` — the dedicated
"No matching '('" exit fires only if that popped operator is not `(`;
any other operator reduces by precedence (strictly greater tops for a
right-associative operator, greater-or-equal for left) and is pushed. -/
def shunt_operator (ops : List Operator) (nums : List DVal) (o : Operator) :
    Except HErr (List Operator × List DVal) :=
  if o.symbol == '(' then
    match push_opstack ops o with
    | .error h => .error h
    | .ok ops' => .ok (ops', nums)
  else if o.symbol == ')' then
    match reduceWhile (fun t => t.symbol != '(') ops nums with
    | .error h => .error h
    | .ok (ops', nums') =>
        match pop_opstack ops' with
        | .error h => .error h
        | .ok (p, ops'') =>
            if p.symbol == '(' then .ok (ops'', nums')
            else .error (.exitE .noMatchingParen)
  else
    match
      (if o.association == Assoc.aright then
        reduceWhile (fun t => decide (o.precedence < t.precedence)) ops nums
      else
        reduceWhile (fun t => decide (o.precedence ≤ t.precedence)) ops nums) with
    | .error h => .error h
    | .ok (ops', nums') =>
        match push_opstack ops' o with
        | .error h => .error h
        | .ok ops'' => .ok (ops'', nums')

/-! ## The scan state (`parser.c` lines 74-80, 193-250) -/

/-- What `lastoperator` points at: the synthetic `startoperator` sentinel
(`{'X', 0, ASSOC_NONE, 0, NULL}`) or a table operator.  The C variable can
also be NULL, modelled by wrapping in `Option`. -/
inductive LastOp where
  | start
  | op (o : Operator)

/-- The mutable state of the scan loop: the two stacks of the
`ParserContext`, the thread-local `tstart` cursor (byte offset), and
`lastoperator`. -/
structure ScanState where
  ops : List Operator
  nums : List DVal
  tstart : Option Nat
  lastop : Option LastOp

/-- The guard `lastoperator && (lastoperator == &startoperator ||
lastoperator->operator != ')')` of `parser.c` line 213. -/
def lastCheck : Option LastOp → Bool
  | none => false
  | some .start => true
  | some (.op o) => o.symbol != ')'

/-- Lines 213-223: in a position where a binary operator is illegal, `-`
is replaced by the unary-minus table entry (`GET_OPERATOR('_')`), `(` is
accepted, and every other operator exits with the illegal-binary-operator
message. -/
def classifyOp (lastop : Option LastOp) (op0 : Operator) : Except PError Operator :=
  if lastCheck lastop then
    if op0.symbol == '-' then .ok op_uminus
    else if op0.symbol == '(' then .ok op0
    else .error (.illegalBinaryOp op0.symbol)
  else .ok op0

/-- Tag a helper failure with the current `tstart`. -/
def liftH (h : HErr) (t : Option Nat) : Abort :=
  match h with
  | .exitE e => .exitA e t
  | .crashE => .crashA t

/-- One iteration of the main loop (`parser.c` lines 208-250), for the
character `c` at byte offset `i`.  With `tstart` unset: a digit or `.`
starts a number token, whitespace is skipped, an operator is classified
(unary-minus / illegal-binary check) and shunted, and any other character
is the `"Syntax error %c"` failure.  With `tstart` set: whitespace or an
operator first converts and pushes the pending token (`strtod` from
`tstart`), whitespace additionally clears `lastoperator` to NULL; digits
and `.` extend the token; anything else is the mid-number syntax error. -/
def scanStep (s : List Char) (i : Nat) (c : Char) (st : ScanState) :
    Except Abort ScanState :=
  match st.tstart with
  | none =>
      if IS_DIGIT_OR_DECIMAL c then .ok { st with tstart := some i }
      else if isspaceChar c then .ok st
      else
        match GET_OPERATOR c with
        | some op0 =>
            match classifyOp st.lastop op0 with
            | .error e => .error (.exitA e none)
            | .ok op1 =>
                match shunt_operator st.ops st.nums op1 with
                | .error h => .error (liftH h none)
                | .ok (ops', nums') =>
                    .ok { ops := ops', nums := nums', tstart := none,
                          lastop := some (.op op1) }
        | none => .error (.retA (.syntaxErrorChar c) none)
  | some t =>
      if isspaceChar c then
        match push_numstack st.nums (strtodAt s t) with
        | .error h => .error (liftH h (some t))
        | .ok nums' => .ok { st with nums := nums', tstart := none, lastop := none }
      else
        match GET_OPERATOR c with
        | some op0 =>
            match push_numstack st.nums (strtodAt s t) with
            | .error h => .error (liftH h (some t))
            | .ok nums' =>
                match shunt_operator st.ops nums' op0 with
                | .error h => .error (liftH h none)
                | .ok (ops', nums'') =>
                    .ok { ops := ops', nums := nums'', tstart := none,
                          lastop := some (.op op0) }
        | none =>
            if IS_DIGIT_OR_DECIMAL c then .ok st
            else .error (.retA .syntaxErrorMid (some t))

/-- The main `for (expr = expression; *expr; ++expr)` loop. -/
def scanLoop (s : List Char) : Nat → List Char → ScanState → Except Abort ScanState
  | _, [], st => .ok st
  | i, c :: rest, st =>
      match scanStep s i c st with
      | .error a => .error a
      | .ok st' => scanLoop s (i + 1) rest st'

/-- Everything up to and including the end-of-input drain
(`parser.c` lines 208-262): run the scan from thread-local cursor state
`t0`, push a still-pending number token (`tstart` is *not* cleared), then
drain the operator stack, reducing every remaining operator.  Returns the
final operand stack and the final value of the thread-local `tstart`. -/
def runToDrain (t0 : Option Nat) (expression : String) :
    Except Abort (List DVal × Option Nat) :=
  match scanLoop expression.data 0 expression.data ⟨[], [], t0, some .start⟩ with
  | .error a => .error a
  | .ok st =>
      match
        (match st.tstart with
         | some t => push_numstack st.nums (strtodAt expression.data t)
         | none => .ok st.nums) with
      | .error h => .error (liftH h st.tstart)
      | .ok nums1 =>
          match reduceWhile (fun _ => true) st.ops nums1 with
          | .error h => .error (liftH h st.tstart)
          | .ok (_, nums2) => .ok (nums2, st.tstart)

/-- One call of `parser(expression)` on a thread whose `tstart` currently
holds `t0`, together with the value `tstart` holds afterwards.  The final
count check (`parser.c` lines 264-270) turns any operand count other than
one into the malformed-result failure reporting that count, returned as
`EXIT_FAILURE` on the double channel. -/
def parserFrom (t0 : Option Nat) (expression : String) : PResult × Option Nat :=
  match runToDrain t0 expression with
  | .error (.retA e t) => (.retFailure e, t)
  | .error (.exitA e t) => (.exited e, t)
  | .error (.crashA t) => (.crash, t)
  | .ok (nums, t) =>
      match nums with
      | [v] => (.ok v, t)
      | l => (.retFailure (.malformedResult l.length), t)

/-- `parser(expression)` as observed on a fresh thread (`tstart = NULL`). -/
def parser (expression : String) : PResult := (parserFrom none expression).1

/-- The second source variant's `eval_modulo` (`part_004` lines 328-334):
a zero divisor is caught and the process exits with
"ERROR: Division by zero" (modelled by `none`); otherwise `fmodf`. -/
def eval_modulo_checked (arg1 arg2 : DVal) : Option DVal :=
  if arg2 = .fin 0 then none else some (dfmod arg1 arg2)

/-! ## Classification of the scan positions and failure channels -/

/-- A position where a binary operator would be illegal: the very start of
the expression (`lastoperator` is the start sentinel) or immediately after
an operator other than `)`. -/
def unaryPosition (lo : Option LastOp) : Prop :=
  lo = some .start ∨ ∃ o, lo = some (.op o) ∧ o.symbol ≠ ')'

/-- Failure kinds delivered by `return EXIT_FAILURE;` (the double channel). -/
def isRetKind : PError → Prop
  | .syntaxErrorChar _ => True
  | .syntaxErrorMid => True
  | .malformedResult _ => True
  | _ => False

/-- Failure kinds delivered by `exit(EXIT_FAILURE)`. -/
def isExitKind : PError → Prop
  | .opStackOverflow => True
  | .opStackEmpty => True
  | .numStackOverflow => True
  | .numStackEmpty => True
  | .noMatchingParen => True
  | .illegalBinaryOp _ => True
  | _ => False

/-- Every helper failure is an exit of one of the exit kinds, or the
NULL-pointer crash. -/
def HErrOK : HErr → Prop
  | .exitE e => isExitKind e
  | .crashE => True

/-- Every abort of the evaluation uses the channel matching its kind. -/
def AbortOK : Abort → Prop
  | .retA e _ => isRetKind e
  | .exitA e _ => isExitKind e
  | .crashA _ => True

/-! ## Supporting lemmas -/

theorem push_opstack_err {ops : List Operator} {o : Operator} {h : HErr}
    (H : push_opstack ops o = .error h) : HErrOK h := by
  unfold push_opstack at H
  split at H
  · injection H with H'
    exact H' ▸ trivial
  · exact Except.noConfusion H

theorem pop_opstack_err {ops : List Operator} {h : HErr}
    (H : pop_opstack ops = .error h) : HErrOK h := by
  cases ops with
  | nil =>
      injection H with H'
      exact H' ▸ trivial
  | cons o rest => exact Except.noConfusion H

theorem push_numstack_err {nums : List DVal} {v : DVal} {h : HErr}
    (H : push_numstack nums v = .error h) : HErrOK h := by
  unfold push_numstack at H
  split at H
  · injection H with H'
    exact H' ▸ trivial
  · exact Except.noConfusion H

theorem pop_numstack_err {nums : List DVal} {h : HErr}
    (H : pop_numstack nums = .error h) : HErrOK h := by
  cases nums with
  | nil =>
      injection H with H'
      exact H' ▸ trivial
  | cons v rest => exact Except.noConfusion H

theorem evalApply_err {o : Operator} {a b : DVal} {h : HErr}
    (H : evalApply o a b = .error h) : HErrOK h := by
  unfold evalApply at H
  split at H
  · exact Except.noConfusion H
  · injection H with H'
    exact H' ▸ trivial

theorem reduceTop_err {o : Operator} {nums : List DVal} {h : HErr}
    (H : reduceTop o nums = .error h) : HErrOK h := by
  unfold reduceTop at H
  split at H
  next heq =>
    injection H with H'
    exact H' ▸ pop_numstack_err heq
  next n1 ns1 heq =>
    split at H
    · split at H
      next heq2 =>
        injection H with H'
        exact H' ▸ evalApply_err heq2
      next v heq2 => exact push_numstack_err H
    · split at H
      next heq2 =>
        injection H with H'
        exact H' ▸ pop_numstack_err heq2
      next n2 ns2 heq2 =>
        split at H
        next heq3 =>
          injection H with H'
          exact H' ▸ evalApply_err heq3
        next v heq3 => exact push_numstack_err H

theorem reduceWhile_err {cond : Operator → Bool} :
    ∀ {ops : List Operator} {nums : List DVal} {h : HErr},
      reduceWhile cond ops nums = .error h → HErrOK h := by
  intro ops
  induction ops with
  | nil =>
      intro nums h H
      exact Except.noConfusion H
  | cons top rest ih =>
      intro nums h H
      unfold reduceWhile at H
      split at H
      · split at H
        next heq =>
          injection H with H'
          exact H' ▸ reduceTop_err heq
        next nums' heq => exact ih H
      · exact Except.noConfusion H

theorem shunt_operator_err {ops : List Operator} {nums : List DVal} {o : Operator} {h : HErr}
    (H : shunt_operator ops nums o = .error h) : HErrOK h := by
  unfold shunt_operator at H
  split at H
  · split at H
    next heq =>
      injection H with H'
      exact H' ▸ push_opstack_err heq
    next ops' heq => exact Except.noConfusion H
  · split at H
    · split at H
      next heq =>
        injection H with H'
        exact H' ▸ reduceWhile_err heq
      next pr heq =>
        split at H
        next heq2 =>
          injection H with H'
          exact H' ▸ pop_opstack_err heq2
        next p ops'' heq2 =>
          split at H
          · exact Except.noConfusion H
          · injection H with H'
            exact H' ▸ trivial
    · split at H
      next heq =>
        injection H with H'
        refine H' ▸ ?_
        split at heq
        · exact reduceWhile_err heq
        · exact reduceWhile_err heq
      next pr heq =>
        split at H
        next heq2 =>
          injection H with H'
          exact H' ▸ push_opstack_err heq2
        next ops'' heq2 => exact Except.noConfusion H

theorem classifyOp_err {lo : Option LastOp} {op0 : Operator} {e : PError}
    (H : classifyOp lo op0 = .error e) : isExitKind e := by
  unfold classifyOp at H
  split at H
  · split at H
    · exact Except.noConfusion H
    · split at H
      · exact Except.noConfusion H
      · injection H with H'
        exact H' ▸ trivial
  · exact Except.noConfusion H

theorem liftH_ok {h : HErr} {t : Option Nat} (H : HErrOK h) : AbortOK (liftH h t) := by
  cases h with
  | exitE e => exact H
  | crashE => trivial

theorem scanStep_err {s : List Char} {i : Nat} {c : Char} {st : ScanState} {a : Abort}
    (H : scanStep s i c st = .error a) : AbortOK a := by
  unfold scanStep at H
  split at H
  · split at H
    · exact Except.noConfusion H
    · split at H
      · exact Except.noConfusion H
      · split at H
        next op0 heq =>
          split at H
          next e heq2 =>
            injection H with H'
            exact H' ▸ classifyOp_err heq2
          next op1 heq2 =>
            split at H
            next heq3 =>
              injection H with H'
              exact H' ▸ liftH_ok (shunt_operator_err heq3)
            next pr heq3 => exact Except.noConfusion H
        next heq =>
          injection H with H'
          exact H' ▸ trivial
  · split at H
    · split at H
      next heq =>
        injection H with H'
        exact H' ▸ liftH_ok (push_numstack_err heq)
      next nums' heq => exact Except.noConfusion H
    · split at H
      next op0 heq =>
        split at H
        next heq2 =>
          injection H with H'
          exact H' ▸ liftH_ok (push_numstack_err heq2)
        next nums' heq2 =>
          split at H
          next heq3 =>
            injection H with H'
            exact H' ▸ liftH_ok (shunt_operator_err heq3)
          next pr heq3 => exact Except.noConfusion H
      next heq =>
        split at H
        · exact Except.noConfusion H
        · injection H with H'
          exact H' ▸ trivial

theorem scanLoop_err {s : List Char} :
    ∀ {l : List Char} {i : Nat} {st : ScanState} {a : Abort},
      scanLoop s i l st = .error a → AbortOK a := by
  intro l
  induction l with
  | nil =>
      intro i st a H
      exact Except.noConfusion H
  | cons c cs ih =>
      intro i st a H
      unfold scanLoop at H
      split at H
      next a' heq =>
        injection H with H'
        exact H' ▸ scanStep_err heq
      next st' heq => exact ih H

theorem runToDrain_err {t0 : Option Nat} {s : String} {a : Abort}
    (H : runToDrain t0 s = .error a) : AbortOK a := by
  unfold runToDrain at H
  split at H
  next a' heq =>
    injection H with H'
    exact H' ▸ scanLoop_err heq
  next st heq =>
    split at H
    next h heq2 =>
      injection H with H'
      refine H' ▸ liftH_ok ?_
      rcases ht : st.tstart with _ | t
      · rw [ht] at heq2
        exact Except.noConfusion heq2
      · rw [ht] at heq2
        exact push_numstack_err heq2
    next nums1 heq2 =>
      split at H
      next h heq3 =>
        injection H with H'
        exact H' ▸ liftH_ok (reduceWhile_err heq3)
      next pr heq3 => exact Except.noConfusion H

theorem isspace_not_digit {c : Char} (hc : isspaceChar c = true) :
    IS_DIGIT_OR_DECIMAL c = false := by
  simp only [isspaceChar, Bool.or_eq_true, beq_iff_eq] at hc
  rcases hc with ((((rfl | rfl) | rfl) | rfl) | rfl) | rfl <;> decide

theorem scanStep_ws {s : List Char} {i : Nat} {c : Char} {st : ScanState}
    (hc : isspaceChar c = true) (ht : st.tstart = none) :
    scanStep s i c st = .ok st := by
  unfold scanStep
  rw [ht, isspace_not_digit hc, hc]
  rfl

/-! ## The claims -/

/-- C1 (counterexample): the code does not fail on a zero divisor at all —
`5/0` evaluates successfully to `+∞` and `5%0` to NaN, refuting "the
evaluation fails with the dedicated DivisionByZero error and never returns
an infinity or NaN result". -/
theorem C1_counterexample :
    parser "5/0" = .ok .inf ∧ parser "5%0" = .ok .nan := by decide

/-- C1 (amended): division or modulo by zero does not fail: for every
positive numerator, `eval_divide` yields `+∞` and `eval_modulo` yields NaN
(there is no division-by-zero check in the embedded variant), so `5/0`
evaluates to `+∞` and `5%0` to NaN; only the second source variant's
`eval_modulo` checks the divisor, and it exits the process. -/
theorem C1_div_mod_zero_amended :
    (∀ q : ℚ, 0 < q →
        eval_divide (.fin q) (.fin 0) = .inf ∧ eval_modulo (.fin q) (.fin 0) = .nan) ∧
    parser "5/0" = .ok .inf ∧ parser "5%0" = .ok .nan ∧
    eval_modulo_checked (.fin 5) (.fin 0) = none := by
  refine ⟨?_, by decide, by decide, by decide⟩
  intro q hq
  constructor
  · simp [eval_divide, ddiv, hq]
  · simp [eval_modulo, dfmod]

/-- C1 (witness): the amended statement evaluated at numerator `5`. -/
theorem C1_witness :
    eval_divide (.fin 5) (.fin 0) = .inf ∧ eval_modulo (.fin 5) (.fin 0) = .nan :=
  C1_div_mod_zero_amended.1 5 (by norm_num)

/-- C2 (counterexample): the thread-local `tstart` cursor is *not* reset at
the start of an evaluation and is left dangling by an expression ending in
a number: the first call of `parser("3+4")` returns 7 and leaves
`tstart` at offset 2, and the second call on the same string then returns
8 — the two successive calls are not bit-identical. -/
theorem C2_counterexample :
    (parserFrom none "3+4").1 = .ok (.fin 7) ∧
    (parserFrom none "3+4").2 = some 2 ∧
    (parserFrom (parserFrom none "3+4").2 "3+4").1 = .ok (.fin 8) ∧
    (parserFrom (parserFrom none "3+4").2 "3+4").1 ≠ (parserFrom none "3+4").1 := by
  decide

/-- C2 (amended): two successive calls of `parser` on the same expression
string yield identical results provided the first call leaves the
thread-local scan cursor `tstart` NULL (the cursor is never reset at the
start of an evaluation, so this is a genuine precondition, violated by any
expression that ends inside a numeric token). -/
theorem C2_idempotent_amended (s : String) (h : (parserFrom none s).2 = none) :
    (parserFrom (parserFrom none s).2 s).1 = (parserFrom none s).1 := by
  rw [h]

/-- C2 (witness): `"3+4 "` (trailing blank) leaves the cursor clear, and
re-evaluating it indeed reproduces the first result. -/
theorem C2_witness :
    (parserFrom none "3+4 ").2 = none ∧
    (parserFrom (parserFrom none "3+4 ").2 "3+4 ").1 = (parserFrom none "3+4 ").1 :=
  ⟨by decide, C2_idempotent_amended "3+4 " (by decide)⟩

/-- C3: the embedded operator table ranks unary minus `_` at precedence 10,
right-associative, above `^` at precedence 9, and consequently `-2^2`
evaluates to `(-2)^2 = 4`, not `-4`.  (The other source variant in
`part_004` swaps the two ranks; the spec's §9 records that divergence.) -/
theorem C3_unary_minus_above_exponent :
    op_uminus.precedence = 10 ∧ op_uminus.association = .aright ∧
    op_exponent.precedence = 9 ∧ op_exponent.association = .aright ∧
    op_exponent.precedence < op_uminus.precedence ∧
    parser "-2^2" = .ok (.fin 4) := by
  exact ⟨rfl, rfl, rfl, rfl, by decide, by decide⟩

/-- C4: `^` chains of equal precedence group right-to-left:
`2^3^2 = 512`, `(2^3)^2 = 64`, `3^1^2 = 3`. -/
theorem C4_exponent_right_assoc :
    parser "2^3^2" = .ok (.fin 512) ∧
    parser "(2^3)^2" = .ok (.fin 64) ∧
    parser "3^1^2" = .ok (.fin 3) := by decide

/-- C5 (counterexample): the evaluation does terminate the process itself
(`3++4` reaches `exit(EXIT_FAILURE)` inside the illegal-binary-operator
check), and a syntax error is returned as `EXIT_FAILURE` (`1.0`) on the
success channel, indistinguishable from the successful evaluation of
`"1"` — refuting "returns the result or reports a structured failure
without terminating the process; no error value on the success channel". -/
theorem C5_counterexample :
    parser "3++4" = .exited (.illegalBinaryOp '+') ∧
    returnedDouble (parser "#") = returnedDouble (parser "1") ∧
    parser "#" = .retFailure (.syntaxErrorChar '#') ∧
    parser "1" = .ok (.fin 1) := by decide

/-- C5 (amended): for every ASCII expression, the entry point either
returns the numeric double result, or returns `EXIT_FAILURE` on the double
channel — and then the failure is one of the two syntax errors or the
malformed-result error — or terminates the process, and then the failure is
one of the stack, parenthesis or illegal-operator exits. -/
theorem C5_channel_classification (s : String)
    (_hascii : ∀ c ∈ s.data, c.toNat < 128) :
    (∀ e, parser s = .retFailure e → isRetKind e) ∧
    (∀ e, parser s = .exited e → isExitKind e) := by
  unfold parser parserFrom
  cases hr : runToDrain none s with
  | error a =>
      have ha := runToDrain_err hr
      cases a with
      | retA e t =>
          refine ⟨fun e' he' => ?_, fun e' he' => ?_⟩
          · have h1 : PResult.retFailure e = PResult.retFailure e' := he'
            injection h1 with h2
            exact h2 ▸ ha
          · exact PResult.noConfusion (show PResult.retFailure e = PResult.exited e' from he')
      | exitA e t =>
          refine ⟨fun e' he' => ?_, fun e' he' => ?_⟩
          · exact PResult.noConfusion (show PResult.exited e = PResult.retFailure e' from he')
          · have h1 : PResult.exited e = PResult.exited e' := he'
            injection h1 with h2
            exact h2 ▸ ha
      | crashA t =>
          refine ⟨fun e' he' => ?_, fun e' he' => ?_⟩
          · exact PResult.noConfusion (show PResult.crash = PResult.retFailure e' from he')
          · exact PResult.noConfusion (show PResult.crash = PResult.exited e' from he')
  | ok pr =>
      obtain ⟨nums, t⟩ := pr
      match nums with
      | [v] =>
          refine ⟨fun e' he' => ?_, fun e' he' => ?_⟩
          · exact PResult.noConfusion (show PResult.ok v = PResult.retFailure e' from he')
          · exact PResult.noConfusion (show PResult.ok v = PResult.exited e' from he')
      | [] =>
          refine ⟨fun e' he' => ?_, fun e' he' => ?_⟩
          · have h1 : PResult.retFailure (.malformedResult 0) = PResult.retFailure e' := he'
            injection h1 with h2
            exact h2 ▸ trivial
          · exact PResult.noConfusion
              (show PResult.retFailure (.malformedResult 0) = PResult.exited e' from he')
      | a :: b :: rest =>
          refine ⟨fun e' he' => ?_, fun e' he' => ?_⟩
          · have h1 : PResult.retFailure (.malformedResult (a :: b :: rest).length) =
                PResult.retFailure e' := he'
            injection h1 with h2
            exact h2 ▸ trivial
          · exact PResult.noConfusion
              (show PResult.retFailure (.malformedResult (a :: b :: rest).length) =
                PResult.exited e' from he')

/-- C5 (witness): the classification applied to `"#"` (syntax error on the
return channel) and `"3++4"` (illegal binary operator exit). -/
theorem C5_witness :
    isRetKind (.syntaxErrorChar '#') ∧ isExitKind (.illegalBinaryOp '+') :=
  ⟨(C5_channel_classification "#" (by decide)).1 _ (by decide),
   (C5_channel_classification "3++4" (by decide)).2 _ (by decide)⟩

/-- C6: in a position where a binary operator is illegal (start sentinel,
or right after an operator other than `)`), a `-` is reclassified to the
unary-minus table entry, and every operator other than `-` and `(` exits
with the illegal-binary-operator error; hence `3++4`, `5*/2` and `/5+2`
all fail with that error. -/
theorem C6_unary_reclassification :
    (∀ lo, unaryPosition lo → classifyOp lo op_subtract = .ok op_uminus) ∧
    (∀ lo o, unaryPosition lo → o.symbol ≠ '-' → o.symbol ≠ '(' →
        classifyOp lo o = .error (.illegalBinaryOp o.symbol)) ∧
    parser "3++4" = .exited (.illegalBinaryOp '+') ∧
    parser "5*/2" = .exited (.illegalBinaryOp '/') ∧
    parser "/5+2" = .exited (.illegalBinaryOp '/') := by
  refine ⟨?_, ?_, by decide, by decide, by decide⟩
  · rintro lo (rfl | ⟨o, rfl, ho⟩)
    · rfl
    · simp [classifyOp, lastCheck, bne_iff_ne, ho, op_subtract]
  · rintro lo o (rfl | ⟨o', rfl, ho'⟩) h1 h2
    · simp [classifyOp, lastCheck, beq_iff_eq, h1, h2]
    · simp [classifyOp, lastCheck, bne_iff_ne, beq_iff_eq, ho', h1, h2]

/-- C6 (witness): the reclassification and the illegal-operator exit,
evaluated right after the start sentinel for `-` and `/`. -/
theorem C6_witness :
    classifyOp (some .start) op_subtract = .ok op_uminus ∧
    classifyOp (some .start) op_divide = .error (.illegalBinaryOp op_divide.symbol) :=
  ⟨C6_unary_reclassification.1 (some .start) (Or.inl rfl),
   C6_unary_reclassification.2.1 (some .start) op_divide (Or.inl rfl)
     (by decide) (by decide)⟩

/-- C7: whenever the scan and end-of-input drain complete, the evaluation
succeeds exactly when the final operand stack holds a single element (which
is the returned result), and any other final count is reported through the
malformed-result failure carrying that count. -/
theorem C7_final_stack_count (s : String) (nums : List DVal) (t : Option Nat)
    (h : runToDrain none s = .ok (nums, t)) :
    (∃ v, nums = [v] ∧ parser s = .ok v) ∨
    (nums.length ≠ 1 ∧ parser s = .retFailure (.malformedResult nums.length)) := by
  unfold parser parserFrom
  rw [h]
  match nums with
  | [] => exact Or.inr ⟨by decide, rfl⟩
  | [v] => exact Or.inl ⟨v, rfl, rfl⟩
  | a :: b :: rest => exact Or.inr ⟨by simp, rfl⟩

/-- C7 (witness): `"3+4"` drains to the single-element stack `[7]` and the
evaluation returns 7. -/
theorem C7_witness :
    (∃ v, [DVal.fin 7] = [v] ∧ parser "3+4" = .ok v) ∨
    ([DVal.fin 7].length ≠ 1 ∧
      parser "3+4" = .retFailure (.malformedResult [DVal.fin 7].length)) :=
  C7_final_stack_count "3+4" [.fin 7] (some 2) (by decide)

/-- C8 (counterexample): both inputs do fail, but neither failure is the
dedicated no-matching-parenthesis error: `2+3)` exits from `pop_opstack`
with the operator-stack-empty message (the `)` reduction drained the stack
before the `(`-check could run), and `((2+3)` exits from `pop_numstack`
with the operand-stack-empty message while the drain tries to reduce the
leftover `(` as a binary operator. -/
theorem C8_counterexample :
    parser "2+3)" = .exited .opStackEmpty ∧
    parser "((2+3)" = .exited .numStackEmpty ∧
    parser "2+3)" ≠ .exited .noMatchingParen ∧
    parser "((2+3)" ≠ .exited .noMatchingParen := by decide

/-- C8 (amended): a `)` whose reduction empties the operator stack before a
`(` is found fails with the operator-stack-empty exit (for any operand
stack), and a leftover `(` encountered while draining with a single operand
fails with the operand-stack-empty exit; so `2+3)` and `((2+3)` both fail,
with those kinds rather than the unmatched-parenthesis kind. -/
theorem C8_unmatched_paren_amended :
    (∀ nums, shunt_operator [] nums op_rparen = .error (.exitE .opStackEmpty)) ∧
    (∀ v, reduceWhile (fun _ => true) [op_lparen] [v] = .error (.exitE .numStackEmpty)) ∧
    parser "2+3)" = .exited .opStackEmpty ∧
    parser "((2+3)" = .exited .numStackEmpty := by
  exact ⟨fun nums => rfl, fun v => rfl, by decide, by decide⟩

/-- C9: the empty string, and any all-whitespace string, leaves the operand
stack empty, so the evaluation does not produce a number: it fails the
exactly-one-operand check reporting a count of zero. -/
theorem C9_empty_and_whitespace :
    parser "" = .retFailure (.malformedResult 0) ∧
    ∀ s : String, (∀ c ∈ s.data, isspaceChar c = true) →
      parser s = .retFailure (.malformedResult 0) := by
  refine ⟨by decide, ?_⟩
  intro s hs
  have hloop : ∀ (l : List Char) (i : Nat), (∀ c ∈ l, isspaceChar c = true) →
      scanLoop s.data i l ⟨[], [], none, some .start⟩ =
        .ok ⟨[], [], none, some .start⟩ := by
    intro l
    induction l with
    | nil => intro i _; rfl
    | cons c cs ih =>
        intro i hl
        unfold scanLoop
        rw [scanStep_ws (hl c (by simp)) rfl]
        exact ih (i + 1) (fun d hd => hl d (by simp [hd]))
  unfold parser parserFrom runToDrain
  rw [hloop s.data 0 hs]
  rfl

/-- C9 (witness): a two-blank string fails with the zero-count
malformed-result failure. -/
theorem C9_witness : parser "  " = .retFailure (.malformedResult 0) :=
  C9_empty_and_whitespace.2 "  " (by decide)

/-- C10: a numeric token is a maximal run of digits and `.`, converted with
`strtod` semantics that stop at the first character that cannot extend the
conversion: `3.5.5` is silently truncated to `3.5` and a lone `.` converts
to `0`. -/
theorem C10_strtod_truncation :
    parseNum "3.5.5".data = 7 / 2 ∧ parseNum ".".data = 0 ∧
    parser "3.5.5" = .ok (.fin (7 / 2)) ∧ parser "." = .ok (.fin 0) := by decide

end ReactionParser
